import Mathlib

/-!
Shallow embedding of the RAE_HealthCheck pipeline (RAEAutomation.py and the
HTTP wrapper in welldataAPI.py), written for verifying the repository's
specification claims.

Conventions of the embedding:
* Python scalar values that can appear in a telemetry snapshot are modelled
  by `PyVal`; Python floats are modelled as rationals (only comparisons with
  zero and with small integer constants matter to the code).
* `isinstance(v, int)` is true for Python bools, which `isInstInt` mirrors.
* Machine state that the per-job loop mutates (`ZeroReportList`,
  `processedJobList`, the accumulated `RAEJobs` rows) is threaded explicitly
  through `processJob` and `runLoop`.
* Each per-job API response is supplied as data in a `JobEnv` record; a
  fetch whose bounded retries were exhausted is represented by the value the
  Python wrapper actually yields in that case (an empty list, or `None` for
  `historical_data_time`), encoded as the corresponding flag being false.
-/

/-- Python-like scalar value as it can appear in the telemetry snapshot
(`attribute_mapping` in `RAEAutomation.main`). -/
inductive PyVal where
  | int (n : Int)
  | float (q : Rat)
  | bool (b : Bool)
  | str (s : String)
  | none
deriving DecidableEq

/-- Python `isinstance(v, int)`: true for ints and bools (bool is a subclass
of int in Python). -/
def isInstInt : PyVal → Bool
  | .int _ => true
  | .bool _ => true
  | _ => false

/-- Python `isinstance(v, float)`. -/
def isInstFloat : PyVal → Bool
  | .float _ => true
  | _ => false

/-- Numeric value of a snapshot entry, used for the comparisons the
classification block performs. Defined as 0 on non-numeric values, but the
classifier only consults it under an `isinstance` guard. -/
def toRat : PyVal → Rat
  | .int n => n
  | .float q => q
  | .bool b => if b then 1 else 0
  | _ => 0

/-- Python `v == n` for an integer literal `n`: numeric cross-type equality,
false for strings and `None`. -/
def valEqNat (v : PyVal) (n : Nat) : Bool :=
  match v with
  | .int m => m == (n : Int)
  | .float q => q == (n : Rat)
  | .bool b => (if b then (1 : Int) else 0) == (n : Int)
  | _ => false

/-- Python `str(v)` as used when IADC snapshot values are written to a row.
The float rendering is abstracted; no claim depends on it. -/
def pyValStr : PyVal → String
  | .int n => toString n
  | .float q => toString q
  | .bool b => if b then "True" else "False"
  | .str s => s
  | .none => "None"

/-- Status code `emoji_check = 3` (OK). -/
def emojiCheck : Nat := 3

/-- Status code `emoji_exclamation = 2` (WARN). -/
def emojiExclamation : Nat := 2

/-- Status code `emoji_x = 0` (MISSING, also the default). -/
def emojiX : Nat := 0

/-- Classification of a numeric presence channel whose source branch tests
`== 0` first (HookLoad, PumpPressure, BlockHeight, PumpSpm/2/3, TopDrvRpm,
TopDrvTorque, BitWeightQualified, BitPosition, FastRopFtHr). Outside the
`isinstance(float) or isinstance(int)` guard the variable keeps its previous
value. -/
def classifyPresenceZeroFirst (prev : Nat) (v : PyVal) : Nat :=
  if isInstFloat v || isInstInt v then
    if toRat v = 0 then emojiExclamation
    else if 0 < toRat v then emojiCheck
    else emojiX
  else prev

/-- Classification of the TrigHkld channel, whose source branch tests `> 0`
first under the same `isinstance(float) or isinstance(int)` guard. -/
def classifyPresenceGtFirst (prev : Nat) (v : PyVal) : Nat :=
  if isInstFloat v || isInstInt v then
    if 0 < toRat v then emojiCheck
    else if toRat v = 0 then emojiExclamation
    else emojiX
  else prev

/-- Classification of RotaryTorque: the source guards this branch with
`isinstance(RotaryTorque_val, int)` only, with no float case. -/
def classifyRotaryTorque (prev : Nat) (v : PyVal) : Nat :=
  if isInstInt v then
    if 0 < toRat v then emojiCheck
    else if toRat v = 0 then emojiExclamation
    else emojiX
  else prev

/-- A status slot that can hold either a text or the numeric default, like
the Python variables `BitStatusbool` and `SlipStatusbool`. -/
inductive StrOrNat where
  | str (s : String)
  | nat (n : Nat)
deriving DecidableEq

/-- Python `str(x)` on a `StrOrNat` slot. -/
def strOrNatStr : StrOrNat → String
  | .str s => s
  | .nat n => toString n

/-- Classification of BitStatus: `0 → 'On'`, `1 → 'Off'`, else `emoji_x`.
There is no `isinstance` guard in the source; any other value (strings
included) falls to the default code. -/
def classifyBitStatus (v : PyVal) : StrOrNat :=
  if valEqNat v 0 then .str "On"
  else if valEqNat v 1 then .str "Off"
  else .nat emojiX

/-- Classification of SlipStatus: `0 → 'Resetting'`, `1 → 'in'`,
`2 → 'out'`, else `emoji_x`. -/
def classifySlipStatus (v : PyVal) : StrOrNat :=
  if valEqNat v 0 then .str "Resetting"
  else if valEqNat v 1 then .str "in"
  else if valEqNat v 2 then .str "out"
  else .nat emojiX

/-- The per-job status variables of `RAEAutomation.main`, at their state
after the classification block. -/
structure Statuses where
  hookLoad : Nat
  pumpPressure : Nat
  blockHeight : Nat
  pumpSpm : Nat
  pumpSpm2 : Nat
  pumpSpm3 : Nat
  rotaryTorque : Nat
  tpDriveRPM : Nat
  tpDriveTorq : Nat
  weightOnBit : Nat
  rpFast : Nat
  tHookLoad : Nat
  bitPosition : Nat
  bitStatus : StrOrNat
  slipStatus : StrOrNat
  iadc : String
  iadc2 : String
  iadc3 : String
deriving DecidableEq

/-- Initial values of the status variables: every channel status starts at
`emoji_x` and the IADC display strings start empty. -/
def initStatuses : Statuses :=
  ⟨emojiX, emojiX, emojiX, emojiX, emojiX, emojiX, emojiX, emojiX, emojiX,
   emojiX, emojiX, emojiX, emojiX, .nat emojiX, .nat emojiX, "", "", ""⟩

/-- One iteration of the `for key, value in attribute_mapping.items()` loop:
the chain of `if key == ...` blocks of the classification section. The keys
are pairwise distinct strings, so the independent `if` statements of the
source are equivalent to this `else if` chain. -/
def classifyStep (s : Statuses) (kv : String × PyVal) : Statuses :=
  if kv.fst = "HookLoad" then { s with hookLoad := classifyPresenceZeroFirst s.hookLoad kv.snd }
  else if kv.fst = "PumpPressure" then { s with pumpPressure := classifyPresenceZeroFirst s.pumpPressure kv.snd }
  else if kv.fst = "BlockHeight" then { s with blockHeight := classifyPresenceZeroFirst s.blockHeight kv.snd }
  else if kv.fst = "PumpSpm" then { s with pumpSpm := classifyPresenceZeroFirst s.pumpSpm kv.snd }
  else if kv.fst = "PumpSpm2" then { s with pumpSpm2 := classifyPresenceZeroFirst s.pumpSpm2 kv.snd }
  else if kv.fst = "PumpSpm3" then { s with pumpSpm3 := classifyPresenceZeroFirst s.pumpSpm3 kv.snd }
  else if kv.fst = "RotaryTorque" then { s with rotaryTorque := classifyRotaryTorque s.rotaryTorque kv.snd }
  else if kv.fst = "TopDrvRpm" then { s with tpDriveRPM := classifyPresenceZeroFirst s.tpDriveRPM kv.snd }
  else if kv.fst = "TopDrvTorque" then { s with tpDriveTorq := classifyPresenceZeroFirst s.tpDriveTorq kv.snd }
  else if kv.fst = "BitWeightQualified" then { s with weightOnBit := classifyPresenceZeroFirst s.weightOnBit kv.snd }
  else if kv.fst = "BitPosition" then { s with bitPosition := classifyPresenceZeroFirst s.bitPosition kv.snd }
  else if kv.fst = "BitStatus" then { s with bitStatus := classifyBitStatus kv.snd }
  else if kv.fst = "FastRopFtHr" then { s with rpFast := classifyPresenceZeroFirst s.rpFast kv.snd }
  else if kv.fst = "SlipStatus" then { s with slipStatus := classifySlipStatus kv.snd }
  else if kv.fst = "TrigHkld" then { s with tHookLoad := classifyPresenceGtFirst s.tHookLoad kv.snd }
  else if kv.fst = "IadcRigActivity" then { s with iadc := pyValStr kv.snd }
  else if kv.fst = "IadcRigActivity2" then { s with iadc2 := pyValStr kv.snd }
  else if kv.fst = "RigActivity" then { s with iadc3 := pyValStr kv.snd }
  else s

/-- The whole classification block applied to a snapshot. -/
def classifySnapshot (snapshot : List (String × PyVal)) : Statuses :=
  snapshot.foldl classifyStep initStatuses

/-- The thirteen numeric presence channels the claims quantify over. -/
inductive Chan where
  | hookLoad
  | pumpPressure
  | blockHeight
  | pumpSpm
  | pumpSpm2
  | pumpSpm3
  | rotaryTorque
  | topDriveRPM
  | topDriveTorque
  | weightOnBit
  | bitPosition
  | fastRop
  | trigHkld
deriving DecidableEq

/-- Snapshot key used by the classification block for each presence
channel. -/
def chanKey : Chan → String
  | .hookLoad => "HookLoad"
  | .pumpPressure => "PumpPressure"
  | .blockHeight => "BlockHeight"
  | .pumpSpm => "PumpSpm"
  | .pumpSpm2 => "PumpSpm2"
  | .pumpSpm3 => "PumpSpm3"
  | .rotaryTorque => "RotaryTorque"
  | .topDriveRPM => "TopDrvRpm"
  | .topDriveTorque => "TopDrvTorque"
  | .weightOnBit => "BitWeightQualified"
  | .bitPosition => "BitPosition"
  | .fastRop => "FastRopFtHr"
  | .trigHkld => "TrigHkld"

/-- Status variable holding the classification result of each presence
channel. -/
def chanStatus : Chan → Statuses → Nat
  | .hookLoad, s => s.hookLoad
  | .pumpPressure, s => s.pumpPressure
  | .blockHeight, s => s.blockHeight
  | .pumpSpm, s => s.pumpSpm
  | .pumpSpm2, s => s.pumpSpm2
  | .pumpSpm3, s => s.pumpSpm3
  | .rotaryTorque, s => s.rotaryTorque
  | .topDriveRPM, s => s.tpDriveRPM
  | .topDriveTorque, s => s.tpDriveTorq
  | .weightOnBit, s => s.weightOnBit
  | .bitPosition, s => s.bitPosition
  | .fastRop, s => s.rpFast
  | .trigHkld, s => s.tHookLoad

/-- Status the classifier assigns to a presence channel whose snapshot value
is `v`, starting from the default state. -/
def chanClassify (c : Chan) (v : PyVal) : Nat :=
  chanStatus c (classifyStep initStatuses (chanKey c, v))

/-- Whether `p` occurs at the start of `h` (over character lists). -/
def startsWithL : List Char → List Char → Bool
  | [], _ => true
  | _ :: _, [] => false
  | a :: as, b :: bs => a == b && startsWithL as bs

/-- Whether `p` occurs somewhere inside `h` (over character lists). -/
def hasSubL (p : List Char) : List Char → Bool
  | [] => startsWithL p []
  | c :: t => startsWithL p (c :: t) || hasSubL p t

/-- Python `p in h` on strings: substring containment. -/
def strIn (p h : String) : Bool :=
  hasSubL p.toList h.toList

/-- The five report schemas the dispatch chain recognizes. -/
inductive Schema where
  | generic
  | handp
  | scan
  | rapad
  | patterson
deriving DecidableEq

/-- Marker substring searched for in the serialized report payload for each
schema. -/
def markerOf : Schema → String
  | .generic => "GenericAmericanMorningReportDW"
  | .handp => "HandPMorningReport"
  | .scan => "ScanMorningReport"
  | .rapad => "RapadMorningReport"
  | .patterson => "PattersonMorningReportRevB"

/-- The `if/elif` schema dispatch chain over `str(report)`: first marker hit
in source order wins; no hit falls to the unrecognized bucket (`none`). -/
def dispatch (payload : String) : Option Schema :=
  if strIn (markerOf .generic) payload then some .generic
  else if strIn (markerOf .handp) payload then some .handp
  else if strIn (markerOf .scan) payload then some .scan
  else if strIn (markerOf .rapad) payload then some .rapad
  else if strIn (markerOf .patterson) payload then some .patterson
  else none

/-- Python objects occurring in the retry conditions of `getApiCall` and
`postApiCall`: integers (bools are rendered as 0 or 1) and `range` objects. -/
inductive PyObj where
  | int (n : Int)
  | range (start stop step : Int)
deriving DecidableEq

/-- Python `==` between these objects: an int never equals a range object. -/
def pyObjEq : PyObj → PyObj → Bool
  | .int a, .int b => a == b
  | .range a b c, .range d e f => a == d && b == e && c == f
  | _, _ => false

/-- Python truthiness: an int is truthy iff nonzero; a range is truthy iff
nonempty. -/
def pyTruthy : PyObj → Bool
  | .int n => n != 0
  | .range s e st =>
    if 0 < st then s < e else if st < 0 then e < s else false

/-- Python `and`, which returns its first operand if falsy, else the
second. -/
def pyAnd (a b : PyObj) : PyObj :=
  if pyTruthy a then b else a

/-- Python `or`, which returns its first operand if truthy, else the
second. -/
def pyOr (a b : PyObj) : PyObj :=
  if pyTruthy a then a else b

/-- A Python bool as the int it subclasses. -/
def pyBoolObj (b : Bool) : PyObj :=
  .int (if b then 1 else 0)

/-- The `elif` condition of `getApiCall`, exactly as Python parses it:
`(r.status_code != 200 and r.status_code == range(500, 599, 1)) or 400`. -/
def getApiElifCond (code : Int) : PyObj :=
  pyOr
    (pyAnd (pyBoolObj (code != 200))
      (pyBoolObj (pyObjEq (.int code) (.range 500 599 1))))
    (.int 400)

/-- Whether `getApiCall` enters its inline second-attempt branch: the `if`
arm requires a 200, and otherwise the `elif` condition's truthiness
decides. -/
def getApiRetryTaken (code : Int) : Bool :=
  if code == 200 then false else pyTruthy (getApiElifCond code)

/-- The `elif` condition of `postApiCall`, exactly as Python parses it:
`r.status_code != 200 and (r.status_code == range(500, 599, 1) or
range(400, 410, 1))`. -/
def postApiElifCond (code : Int) : PyObj :=
  pyAnd (pyBoolObj (code != 200))
    (pyOr (pyBoolObj (pyObjEq (.int code) (.range 500 599 1)))
      (.range 400 410 1))

/-- Whether `postApiCall` enters its inline second-attempt branch. -/
def postApiRetryTaken (code : Int) : Bool :=
  if code == 200 then false else pyTruthy (postApiElifCond code)

/-- One job record of the `getJobs` listing, reduced to the fields the
lookup-table construction reads. -/
structure JobRec where
  id : String
  owner : String
  rigName : String
deriving DecidableEq

/-- One Python dict assignment `d[k] = v`: overwrite if present, else
append. -/
def dictInsert (d : List (String × String)) (k v : String) : List (String × String) :=
  if d.any (fun kv => kv.fst == k) then
    d.map (fun kv => if kv.fst == k then (k, v) else kv)
  else d ++ [(k, v)]

/-- The `lookup_table` built from all fetched jobs, keyed by
`"{owner} {rigName}"` with the job id as value. -/
def lookupTable (jobs : List JobRec) : List (String × String) :=
  jobs.foldl (fun d w => dictInsert d (w.owner ++ " " ++ w.rigName) w.id) []

/-- The `tmpJobs` selection: for each configured rig-name substring, every
lookup key containing it contributes its job id, in table order. -/
def tmpJobsOf (raeRigs : List String) (table : List (String × String)) : List String :=
  raeRigs.foldl
    (fun acc w => acc ++ (table.filter (fun kv => strIn w kv.fst)).map (fun kv => kv.snd))
    []

/-- The ids the per-job loop actually iterates: the loop header is
`for w in tmpAllJobs`, so every fetched job id, in provider order. -/
def loopJobIds (jobs : List JobRec) : List String :=
  jobs.map (fun w => w.id)

/-- One attribute record of the `getAttributes` response, reduced to the
fields the selection loop reads. -/
structure AttrRec where
  id : String
  mnemonic : String
  hasData : Bool
deriving DecidableEq

/-- The fixed set of recognized witsml mnemonics of the attribute-selection
loop. -/
def mnemonics : List String :=
  ["HOOKLOAD_MAX", "STP_PRS_1", "BLOCK_POS", "MP1_SPM", "MP2_SPM", "MP3_SPM",
   "ROT_TORQUE", "TD_SPEED", "TD_TORQUE", "WOB", "BIT_DEPTH", "BIT_ON_BTM",
   "FAST_ROP_FT_HR", "SLIPS_STAT", "Trigger Hkld", "IADC_RIG_ACTIVITY",
   "IADC_RIG_ACTIVITY2", "IADC_RIG_ACTIVITY3"]

/-- The `attsLst` selection: an attribute contributes iff `hasData` is true
and its mnemonic is one of the recognized mnemonics; the mode is always
`Last`, so only the id matters here. -/
def selectAttrs (attrs : List AttrRec) : List String :=
  (attrs.filter (fun a => a.hasData && mnemonics.contains a.mnemonic)).map
    (fun a => a.id)

/-- One cell of a spreadsheet row: the source appends either strings or
ints. -/
inductive Cell where
  | str (s : String)
  | int (n : Nat)
deriving DecidableEq

/-- Whether a cell holds an int. -/
def cellIsInt : Cell → Bool
  | .int _ => true
  | .str _ => false

/-- The per-job inputs of one iteration of the processing loop, i.e. the
responses the provider returns for this job. A fetch that exhausted its
retries is represented by what the wrapper then yields: `attrsFetched =
false` stands for `getApiCall` returning `[]` (so `q[0]` raises), and
`histFetched = false` stands for `historical_data_time` returning `None`
after tenacity gives up (so `hist['timeRecords']` raises). The identity
fields stand for the `getJobsId` response, and the `ex…` fields for the
schema-specific header extractions of a recognized report payload. -/
structure JobEnv where
  id : String
  owner : String
  rigName : String
  siteOwner : String
  jobName : String
  attrsFetched : Bool
  attrs : List AttrRec
  histFetched : Bool
  timeRecordsEmpty : Bool
  snapshot : List (String × PyVal)
  listing : List String
  contentNonempty : Bool
  payload : String
  exComment : String
  exComment24 : String
  exReportID : String
  exReportDate : String
deriving DecidableEq

/-- The 26 `holder.append` calls shared by all three row-append sites: four
identity fields, three IADC display strings, thirteen `int(...)` status
codes, `str(BitStatusbool)`, `str(SlipStatusbool)`, then comment, next-24h
comment, report id and report date. -/
def buildRow (env : JobEnv) (cls : Statuses)
    (comment comment24 reportID reportDate : String) : List Cell :=
  [.str env.owner, .str env.rigName, .str env.siteOwner, .str env.jobName,
   .str cls.iadc, .str cls.iadc2, .str cls.iadc3,
   .int cls.hookLoad, .int cls.pumpPressure, .int cls.blockHeight,
   .int cls.pumpSpm, .int cls.pumpSpm2, .int cls.pumpSpm3,
   .int cls.rotaryTorque, .int cls.tpDriveRPM, .int cls.tpDriveTorq,
   .int cls.weightOnBit, .int cls.rpFast, .int cls.tHookLoad,
   .int cls.bitPosition,
   .str (strOrNatStr cls.bitStatus), .str (strOrNatStr cls.slipStatus),
   .str comment, .str comment24, .str reportID, .str reportDate]

/-- The main sheet's header list, verbatim from the source. -/
def header : List String :=
  ["Contractor", "Rig Number", "Operator", "Well name", "IADC", "IADC 2",
   "IADC3", "HookLoad", "PumpPressure", "BlockHeight", "PumpSpm", "PumpSpm2",
   "PumpSpm3", "RotaryTorque", "TopDrive RPM", "TopDrive Torque", "WOB",
   "ROP-F", "T-HL", "BitPosition", "BitStatus", "SlipStatus", "Comments",
   "Next 24 Hr Comments", "Report Id", "Report Date"]

/-- The run-wide mutable collections the loop updates (`ZeroReportList` and
the unrecognized-schema `processedJobList`). -/
structure RunState where
  zeroReportList : List String
  processedJobList : List String
deriving DecidableEq

/-- Initial run state: both collections start empty each run. -/
def initialState : RunState := ⟨[], []⟩

/-- What one loop iteration does with its row: appends exactly one, appends
none via `continue`, or raises out to the run-wide handler. -/
inductive Outcome where
  | appended (row : List Cell)
  | skipped
  | raised
deriving DecidableEq

/-- Result of one loop iteration: the updated run state, the row outcome,
and how many report-listing and report-content HTTP calls were issued. -/
structure StepResult where
  state : RunState
  outcome : Outcome
  listingCalls : Nat
  contentCalls : Nat
deriving DecidableEq

/-- One iteration of `for w in tmpAllJobs`, following the source's control
flow: `q[0]` on an empty attribute response raises; an empty `attsLst`
appends a default row and continues; `hist['timeRecords']` on `None`
raises; empty time records append a default row and continue; otherwise the
snapshot is classified and the report section runs. In the report section,
the listing is fetched unconditionally, jobs already in `ZeroReportList`
continue without a row, an empty listing remembers the job and appends a
row with the `no morning report` sentinel comment, an empty content fetch
remembers the job and then raises (`str(report)` is `[]`-serialized, no
marker matches, and every following branch indexes `report[0]`), a
recognized payload appends a row with the extracted fields, and an
unrecognized one is recorded in `processedJobList` and continues. -/
def processJob (st : RunState) (env : JobEnv) : StepResult :=
  if !env.attrsFetched then ⟨st, .raised, 0, 0⟩
  else if (selectAttrs env.attrs).isEmpty then
    ⟨st, .appended (buildRow env initStatuses "NA" "NA" "" ""), 0, 0⟩
  else if !env.histFetched then ⟨st, .raised, 0, 0⟩
  else if env.timeRecordsEmpty then
    ⟨st, .appended (buildRow env initStatuses "NA" "NA" "" ""), 0, 0⟩
  else
    let cls := classifySnapshot env.snapshot
    if st.zeroReportList.contains env.id then ⟨st, .skipped, 1, 0⟩
    else if env.listing.isEmpty then
      ⟨⟨st.zeroReportList ++ [env.id], st.processedJobList⟩,
       .appended (buildRow env cls "no morning report" "NA" "" ""), 1, 0⟩
    else if !env.contentNonempty then
      ⟨⟨st.zeroReportList ++ [env.id], st.processedJobList⟩, .raised, 1, 1⟩
    else
      match dispatch env.payload with
      | some _ =>
        ⟨st, .appended (buildRow env cls env.exComment env.exComment24
          env.exReportID env.exReportDate), 1, 1⟩
      | Option.none =>
        ⟨⟨st.zeroReportList, st.processedJobList ++ [env.id]⟩, .skipped, 1, 1⟩

/-- The `try`-wrapped per-job loop: processes jobs in order, accumulating
rows; a raised exception ends the loop for the current and all remaining
jobs (the run-wide handler swallows it), keeping the rows accumulated so
far. -/
def runLoop : RunState → List JobEnv → RunState × List (List Cell)
  | st, [] => (st, [])
  | st, env :: rest =>
    let r := processJob st env
    match r.outcome with
    | .appended row =>
      let next := runLoop r.state rest
      (next.fst, row :: next.snd)
    | .skipped => runLoop r.state rest
    | .raised => (r.state, [])

/-- The `RAEJobs` rows a run accumulates. -/
def mainRows (envs : List JobEnv) : List (List Cell) :=
  (runLoop initialState envs).snd

/-- Display comparison used when the sheet is written: rows are sorted by
their first column (the contractor name). -/
def rowLe (a b : List Cell) : Bool :=
  (match a.head? with | some (.str s) => s | _ => "") ≤
  (match b.head? with | some (.str s) => s | _ => "")

/-- The rows as written to the `RAE Report` sheet: the accumulated rows,
resorted by contractor name. -/
def writtenRows (envs : List JobEnv) : List (List Cell) :=
  (mainRows envs).mergeSort rowLe

/-- A job whose report phase runs: attributes fetched with a nonempty
selection, snapshot fetched with at least one time record. -/
def reachesReportPhase (env : JobEnv) : Bool :=
  env.attrsFetched && !(selectAttrs env.attrs).isEmpty &&
    env.histFetched && !env.timeRecordsEmpty

/-- A job with one selected channel whose report listing comes back empty;
used as concrete input in several claims. -/
def cEnvZ : JobEnv :=
  ⟨"J1", "AcmeDrilling", "Rig 7", "OperatorCo", "Well A",
   true, [⟨"a1", "HOOKLOAD_MAX", true⟩], true, false,
   [("HookLoad", PyVal.float 25000)], [], false, "", "", "", "", ""⟩

/-- A job whose attribute fetch exhausted its retries: `getApiCall` returned
an empty list, so `q[0]` raises. -/
def cEnvBadAttrs : JobEnv :=
  ⟨"J2", "BobcatDrilling", "Rig 9", "OperatorCo", "Well B",
   false, [], true, false, [], [], false, "", "", "", "", ""⟩

/-- A job with no recognized attribute with data: the empty-selection branch
appends its default row immediately. -/
def cEnvDefaults : JobEnv :=
  ⟨"J3", "CraneDrilling", "Rig 3", "OperatorCo", "Well C",
   true, [], true, false, [], [], false, "", "", "", "", ""⟩

/-- A job whose report listing is nonempty but whose content fetch returned
an empty list. -/
def cEnvNoContent : JobEnv :=
  ⟨"J4", "DeltaDrilling", "Rig 4", "OperatorCo", "Well D",
   true, [⟨"a1", "HOOKLOAD_MAX", true⟩], true, false,
   [("HookLoad", PyVal.float 25000)], ["r1"], false, "", "", "", "", ""⟩

/-- A job whose report payload carries exactly the HandP marker. -/
def cEnvHandP : JobEnv :=
  ⟨"J5", "EchoDrilling", "Rig 5", "OperatorCo", "Well E",
   true, [⟨"a1", "HOOKLOAD_MAX", true⟩], true, false,
   [("HookLoad", PyVal.float 25000)], ["r1"], true,
   "HandPMorningReport", "Drilling ahead", "", "77", "2024-01-10"⟩

/-- The three-way characterization of a zero-first presence classifier
applied to a numeric value, starting from the default status. -/
theorem presenceZeroFirst_triple (v : PyVal)
    (h : (isInstFloat v || isInstInt v) = true) :
    (classifyPresenceZeroFirst emojiX v = emojiCheck ↔ 0 < toRat v) ∧
    (classifyPresenceZeroFirst emojiX v = emojiExclamation ↔ toRat v = 0) ∧
    (classifyPresenceZeroFirst emojiX v = emojiX ↔ toRat v < 0) := by
  unfold classifyPresenceZeroFirst
  rw [h]
  rcases lt_trichotomy (toRat v) 0 with hlt | heq | hgt
  · simp [hlt.ne, not_lt_of_lt hlt, emojiCheck, emojiExclamation, emojiX, hlt]
  · simp [heq, emojiCheck, emojiExclamation, emojiX]
  · simp [hgt.ne', hgt, emojiCheck, emojiExclamation, emojiX, not_lt_of_lt hgt]

/-- The greater-than-first variant agrees with the zero-first variant. -/
theorem presenceGtFirst_eq (prev : Nat) (v : PyVal) :
    classifyPresenceGtFirst prev v = classifyPresenceZeroFirst prev v := by
  unfold classifyPresenceGtFirst classifyPresenceZeroFirst
  rcases lt_trichotomy (toRat v) 0 with hlt | heq | hgt
  · simp [hlt.ne, not_lt_of_lt hlt]
  · simp [heq]
  · simp [hgt.ne', hgt]

/-- The RotaryTorque classifier agrees with the zero-first presence rule on
int-instance values. -/
theorem rotary_int_eq (prev : Nat) (v : PyVal) (h : isInstInt v = true) :
    classifyRotaryTorque prev v = classifyPresenceZeroFirst prev v := by
  unfold classifyRotaryTorque classifyPresenceZeroFirst
  rw [h, Bool.or_true]
  rcases lt_trichotomy (toRat v) 0 with hlt | heq | hgt
  · simp [hlt.ne, not_lt_of_lt hlt]
  · simp [heq]
  · simp [hgt.ne', hgt]

/-- On a float value the RotaryTorque classifier keeps the previous
status. -/
theorem rotary_float (prev : Nat) (v : PyVal) (h : isInstFloat v = true) :
    classifyRotaryTorque prev v = prev := by
  cases v <;> simp_all [classifyRotaryTorque, isInstFloat, isInstInt]

/-- On a non-numeric value every presence classifier keeps the previous
status. -/
theorem presence_nonnumeric (prev : Nat) (v : PyVal)
    (h : (isInstFloat v || isInstInt v) = false) :
    classifyPresenceZeroFirst prev v = prev ∧
    classifyPresenceGtFirst prev v = prev ∧
    classifyRotaryTorque prev v = prev := by
  have h2 : isInstInt v = false := by
    cases v <;> simp_all [isInstFloat, isInstInt]
  have h3 : isInstFloat v = false := by
    cases v <;> simp_all [isInstFloat, isInstInt]
  simp [classifyPresenceZeroFirst, classifyPresenceGtFirst,
    classifyRotaryTorque, h, h2, h3]

/-- Reduction of the per-channel classifier to the three rule variants the
source uses: RotaryTorque is guarded by `isinstance(int)` only, TrigHkld
tests `> 0` first, and every other presence channel uses the zero-first
rule. -/
theorem chanClassify_eq (c : Chan) (v : PyVal) :
    chanClassify c v =
      (if c = Chan.rotaryTorque then classifyRotaryTorque emojiX v
       else if c = Chan.trigHkld then classifyPresenceGtFirst emojiX v
       else classifyPresenceZeroFirst emojiX v) := by
  cases c <;> rfl

/-- C1, counterexample: the claim says every listed presence channel maps a
positive numeric value to OK, but for RotaryTorque the source only
classifies `isinstance(int)` values, so the positive float 2.0 is left at
the MISSING default instead of OK. -/
theorem raeC1_counterexample :
    (0 : Rat) < toRat (PyVal.float 2) ∧
    chanClassify Chan.rotaryTorque (PyVal.float 2) ≠ emojiCheck := by decide

/-- C1, amended: for each presence channel except RotaryTorque, a numeric
snapshot value v is classified OK iff v > 0, WARN iff v = 0 and MISSING iff
v < 0; RotaryTorque obeys the same rule only on int-instance values and
leaves float values at the MISSING default; non-numeric values are MISSING
for every channel. -/
theorem raeC1_amended (c : Chan) (v : PyVal) :
    ((isInstFloat v || isInstInt v) = true →
      ((c = Chan.rotaryTorque → isInstInt v = true) →
        ((chanClassify c v = emojiCheck ↔ 0 < toRat v) ∧
         (chanClassify c v = emojiExclamation ↔ toRat v = 0) ∧
         (chanClassify c v = emojiX ↔ toRat v < 0))) ∧
      (c = Chan.rotaryTorque → isInstFloat v = true →
        chanClassify c v = emojiX)) ∧
    ((isInstFloat v || isInstInt v) = false → chanClassify c v = emojiX) := by
  have he := chanClassify_eq c v
  by_cases hrot : c = Chan.rotaryTorque
  · subst hrot
    rw [if_pos rfl] at he
    refine ⟨fun hnum => ⟨fun hint => ?_, fun _ hf => ?_⟩, fun hnn => ?_⟩
    · rw [he, rotary_int_eq _ _ (hint rfl)]
      exact presenceZeroFirst_triple v hnum
    · rw [he]
      exact rotary_float _ v hf
    · rw [he]
      exact (presence_nonnumeric _ v hnn).2.2
  · by_cases htr : c = Chan.trigHkld
    · subst htr
      rw [if_neg hrot, if_pos rfl] at he
      refine ⟨fun hnum => ⟨fun _ => ?_, fun hc _ => absurd hc hrot⟩,
        fun hnn => ?_⟩
      · rw [he, presenceGtFirst_eq]
        exact presenceZeroFirst_triple v hnum
      · rw [he]
        exact (presence_nonnumeric _ v hnn).2.1
    · rw [if_neg hrot, if_neg htr] at he
      refine ⟨fun hnum => ⟨fun _ => ?_, fun hc _ => absurd hc hrot⟩,
        fun hnn => ?_⟩
      · rw [he]
        exact presenceZeroFirst_triple v hnum
      · rw [he]
        exact (presence_nonnumeric _ v hnn).1

/-- C1, witness: the amended theorem applied to HookLoad with snapshot
value 5. -/
theorem raeC1_witness :
    (chanClassify Chan.hookLoad (PyVal.int 5) = emojiCheck ↔
      0 < toRat (PyVal.int 5)) ∧
    (chanClassify Chan.hookLoad (PyVal.int 5) = emojiExclamation ↔
      toRat (PyVal.int 5) = 0) ∧
    (chanClassify Chan.hookLoad (PyVal.int 5) = emojiX ↔
      toRat (PyVal.int 5) < 0) :=
  ((raeC1_amended Chan.hookLoad (PyVal.int 5)).1 (by decide)).1 (by decide)

/-- C5, counterexample: the claim says the inline retry branch is never
entered, but the branch condition, as Python parses it, is truthy for every
non-200 status: at 404 and at 500 `getApiCall` does enter it. -/
theorem raeC5_counterexample :
    getApiRetryTaken 404 = true ∧ getApiRetryTaken 500 = true := by decide

/-- C5, amended: the subexpression `status_code == range(500, 599, 1)` alone
indeed never evaluates true, but because the condition ends in `or 400`
(`getApiCall`) or `or range(400, 410, 1)` (`postApiCall`) the whole `elif`
condition is truthy for every non-200 status, so the inline second-attempt
branch is entered exactly on non-200 responses. -/
theorem raeC5_amended (code : Int) :
    pyObjEq (PyObj.int code) (PyObj.range 500 599 1) = false ∧
    getApiRetryTaken code = !(code == 200) ∧
    postApiRetryTaken code = !(code == 200) := by
  refine ⟨rfl, ?_, ?_⟩
  · by_cases h : code = 200 <;>
      simp [getApiRetryTaken, getApiElifCond, pyOr, pyAnd, pyTruthy,
        pyBoolObj, pyObjEq, h]
  · by_cases h : code = 200 <;>
      simp [postApiRetryTaken, postApiElifCond, pyOr, pyAnd, pyTruthy,
        pyBoolObj, pyObjEq, h]

/-- Flattening of a fold that appends a block per element, as in the
`tmpJobs` construction. -/
theorem foldl_append_eq {α β : Type} (f : α → List β) (l : List α)
    (a : List β) :
    l.foldl (fun acc w => acc ++ f w) a = a ++ l.flatMap f := by
  induction l generalizing a with
  | nil => simp
  | cons x xs ih => simp [ih, List.flatMap_cons, List.append_assoc]

/-- Membership in the `tmpJobs` selection: an id is selected iff some
configured rig-name substring occurs in a lookup key mapped to that id. -/
theorem mem_tmpJobsOf (raeRigs : List String)
    (table : List (String × String)) (v : String) :
    v ∈ tmpJobsOf raeRigs table ↔
      ∃ w ∈ raeRigs, ∃ k, (k, v) ∈ table ∧ strIn w k = true := by
  unfold tmpJobsOf
  rw [foldl_append_eq]
  simp only [List.nil_append, List.mem_flatMap, List.mem_map,
    List.mem_filter]
  constructor
  · rintro ⟨w, hw, ⟨k, vv⟩, ⟨hk, hs⟩, rfl⟩
    exact ⟨w, hw, k, hk, hs⟩
  · rintro ⟨w, hw, k, hk, hs⟩
    exact ⟨w, hw, ⟨k, v⟩, ⟨hk, hs⟩, rfl⟩

/-- A job outside the configured allow-list, used as concrete input for
claim C2. -/
def c2Job : JobRec := ⟨"j1", "Acme", "Rig 1"⟩

/-- C2, counterexample: the claim says the matching job ids are the ones
processed, but the loop header is `for w in tmpAllJobs`: with one fetched
job matching no configured substring, the processed ids are nonempty while
the substring selection is empty. -/
theorem raeC2_counterexample :
    loopJobIds [c2Job] ≠ tmpJobsOf ["Patterson"] (lookupTable [c2Job]) ∧
    tmpJobsOf ["Patterson"] (lookupTable [c2Job]) = [] ∧
    loopJobIds [c2Job] = ["j1"] := by decide

/-- C2, amended: the substring containment match over the
`"{owner} {rigName}"` lookup keys does select exactly the matching job ids
into `tmpJobs`, but the per-job loop iterates every fetched job
(`tmpAllJobs`), not the selection, which is computed and printed only. -/
theorem raeC2_amended (jobs : List JobRec) (raeRigs : List String)
    (v : String) :
    loopJobIds jobs = jobs.map (fun w => w.id) ∧
    (v ∈ tmpJobsOf raeRigs (lookupTable jobs) ↔
      ∃ w ∈ raeRigs, ∃ k, (k, v) ∈ lookupTable jobs ∧ strIn w k = true) :=
  ⟨rfl, mem_tmpJobsOf raeRigs (lookupTable jobs) v⟩

/-- C6: the schema dispatch chain is decided by substring hits in source
order, so a payload containing exactly one of the five markers selects that
schema's extraction path, and a payload containing none falls to the
unrecognized bucket; being a single `if/elif/else` chain it takes exactly
one path. -/
theorem raeC6 :
    (∀ p s, strIn (markerOf s) p = true →
      (∀ t, t ≠ s → strIn (markerOf t) p = false) →
      dispatch p = some s) ∧
    (∀ p, (∀ t, strIn (markerOf t) p = false) → dispatch p = none) := by
  constructor
  · intro p s h1 h2
    cases s
    · simp [dispatch, h1]
    · simp [dispatch, h1, h2 .generic (by decide)]
    · simp [dispatch, h1, h2 .generic (by decide), h2 .handp (by decide)]
    · simp [dispatch, h1, h2 .generic (by decide), h2 .handp (by decide),
        h2 .scan (by decide)]
    · simp [dispatch, h1, h2 .generic (by decide), h2 .handp (by decide),
        h2 .scan (by decide), h2 .rapad (by decide)]
  · intro p h
    simp [dispatch, h .generic, h .handp, h .scan, h .rapad, h .patterson]

/-- C6, witness: a payload that is exactly the Scan marker dispatches to the
Scan path. -/
theorem raeC6_witness : dispatch "ScanMorningReport" = some Schema.scan :=
  raeC6.1 "ScanMorningReport" Schema.scan (by decide)
    (by intro t ht; cases t <;> first | exact absurd rfl ht | decide)

/-- C3, counterexample: the claim says a job whose id is already in the
zero-report set still gets a row, but the source hits `continue` before the
append; encountering the same zero-report job twice yields one row, not
two. -/
theorem raeC3_counterexample :
    (mainRows [cEnvZ, cEnvZ]).length = 1 ∧
    (mainRows [cEnvZ, cEnvZ]).length ≠ 2 := by decide

/-- C3, amended: one loop iteration appends at most one row, and appends
exactly one iff the attribute fetch succeeded and either the selection was
empty, or the snapshot phase ran with an empty first record set, or the
report phase ran for a job not in the zero-report set whose listing was
empty or whose payload matched a marker; jobs already in the zero-report
set and jobs with an unrecognized payload `continue` without a row. Rows
are appended in iteration order. -/
theorem raeC3_amended (st : RunState) (env : JobEnv) :
    ((∃ row, (processJob st env).outcome = Outcome.appended row) ↔
      env.attrsFetched = true ∧
        ((selectAttrs env.attrs).isEmpty = true ∨
          (env.histFetched = true ∧
            (env.timeRecordsEmpty = true ∨
              (env.timeRecordsEmpty = false ∧
                st.zeroReportList.contains env.id = false ∧
                (env.listing.isEmpty = true ∨
                  (env.contentNonempty = true ∧
                    (dispatch env.payload).isSome = true))))))) ∧
    (∀ rest row, (processJob st env).outcome = Outcome.appended row →
      (runLoop st (env :: rest)).snd =
        row :: (runLoop (processJob st env).state rest).snd) := by
  constructor
  · by_cases h1 : env.attrsFetched = true
    · by_cases h2 : (selectAttrs env.attrs).isEmpty = true
      · simp [processJob, h1, h2]
      · by_cases h3 : env.histFetched = true
        · by_cases h4 : env.timeRecordsEmpty = true
          · simp [processJob, h1, h2, h3, h4]
          · by_cases h5 : env.id ∈ st.zeroReportList
            · simp [processJob, h1, h2, h3, h4, h5]
            · by_cases h6 : env.listing.isEmpty = true
              · simp [processJob, h1, h2, h3, h4, h5, h6]
              · by_cases h7 : env.contentNonempty = true
                · rcases hd : dispatch env.payload with _ | s <;>
                    simp [processJob, h1, h2, h3, h4, h5, h6, h7, hd]
                · simp [processJob, h1, h2, h3, h4, h5, h6, h7]
        · simp [processJob, h1, h2, h3]
    · simp [processJob, h1]
  · intro rest row h
    simp [runLoop, h]

/-- C3, witness: the amended theorem's ordering clause applied to the
zero-listing job at the initial state. -/
theorem raeC3_witness :
    (runLoop initialState [cEnvZ]).snd =
      buildRow cEnvZ (classifySnapshot cEnvZ.snapshot)
        "no morning report" "NA" "" "" ::
      (runLoop (processJob initialState cEnvZ).state []).snd :=
  (raeC3_amended initialState cEnvZ).2 []
    (buildRow cEnvZ (classifySnapshot cEnvZ.snapshot)
      "no morning report" "NA" "" "") (by decide)

/-- C4, counterexample: with a first job whose attribute fetch exhausted its
retries and a second healthy job, the run accumulates no rows at all — the
failed job gets no default row and the healthy job is never reached —
whereas the healthy job alone yields one row. -/
theorem raeC4_counterexample :
    mainRows [cEnvBadAttrs, cEnvDefaults] = [] ∧
    (mainRows [cEnvDefaults]).length = 1 := by decide

/-- C4, amended: an exhausted attribute fetch (empty `q`, so `q[0]` raises)
or an exhausted snapshot fetch (`hist` is `None`, so subscripting raises)
raises out of the iteration, and a raised iteration ends the whole loop; by
contrast an exhausted report-listing fetch (empty `r`) is non-fatal and the
job still gets a row carrying the `no morning report` sentinel. -/
theorem raeC4_amended (st : RunState) (env : JobEnv) :
    (env.attrsFetched = false →
      processJob st env = ⟨st, Outcome.raised, 0, 0⟩) ∧
    (env.attrsFetched = true → (selectAttrs env.attrs).isEmpty = false →
      env.histFetched = false →
      processJob st env = ⟨st, Outcome.raised, 0, 0⟩) ∧
    (reachesReportPhase env = true →
      st.zeroReportList.contains env.id = false → env.listing = [] →
      (processJob st env).outcome = Outcome.appended
        (buildRow env (classifySnapshot env.snapshot)
          "no morning report" "NA" "" "")) ∧
    (∀ rest, (processJob st env).outcome = Outcome.raised →
      runLoop st (env :: rest) = ((processJob st env).state, [])) := by
  refine ⟨fun h1 => ?_, fun h1 h2 h3 => ?_, fun h1 h2 h3 => ?_,
    fun rest h => ?_⟩
  · simp [processJob, h1]
  · simp [processJob, h1, h2, h3]
  · simp only [reachesReportPhase, Bool.and_eq_true, Bool.not_eq_true'] at h1
    obtain ⟨⟨⟨ha, hb⟩, hc⟩, hd⟩ := h1
    have h2m : env.id ∉ st.zeroReportList := by
      simpa using h2
    simp [processJob, ha, hb, hc, hd, h2m, h3]
  · simp [runLoop, h]

/-- C4, witness: the amended theorem applied to the job whose attribute
fetch failed. -/
theorem raeC4_witness :
    processJob initialState cEnvBadAttrs =
      ⟨initialState, Outcome.raised, 0, 0⟩ :=
  (raeC4_amended initialState cEnvBadAttrs).1 (by decide)

/-- C7, counterexample: the claim says a remembered zero-report job is not
re-queried on a later encounter in the same run, but the report-listing
call precedes the membership check, so the second encounter still issues
the listing query. -/
theorem raeC7_counterexample :
    (processJob initialState cEnvZ).state.zeroReportList = ["J1"] ∧
    (processJob (processJob initialState cEnvZ).state cEnvZ).listingCalls
      = 1 := by decide

/-- C7, amended: a job whose report listing is empty gets the `no morning
report` sentinel comment in its row and its id enters the zero-report set
exactly once; a later encounter in the same run is skipped without a row
and without a content fetch, but only after the report listing has been
queried again. -/
theorem raeC7_amended (st : RunState) (env : JobEnv)
    (h1 : reachesReportPhase env = true)
    (h2 : st.zeroReportList.contains env.id = false)
    (h3 : env.listing = []) :
    (processJob st env).state.zeroReportList =
      st.zeroReportList ++ [env.id] ∧
    (processJob st env).outcome = Outcome.appended
      (buildRow env (classifySnapshot env.snapshot)
        "no morning report" "NA" "" "") ∧
    (processJob st env).state.zeroReportList.count env.id = 1 ∧
    processJob (processJob st env).state env =
      ⟨(processJob st env).state, Outcome.skipped, 1, 0⟩ := by
  simp only [reachesReportPhase, Bool.and_eq_true, Bool.not_eq_true'] at h1
  obtain ⟨⟨⟨ha, hb⟩, hc⟩, hd⟩ := h1
  have h2m : env.id ∉ st.zeroReportList := by
    simpa using h2
  have hcount : st.zeroReportList.count env.id = 0 :=
    List.count_eq_zero.mpr h2m
  refine ⟨?_, ?_, ?_, ?_⟩
  · simp [processJob, ha, hb, hc, hd, h2m, h3]
  · simp [processJob, ha, hb, hc, hd, h2m, h3]
  · simp [processJob, ha, hb, hc, hd, h2m, h3, List.count_append, hcount]
  · simp [processJob, ha, hb, hc, hd, h2m, h3]

/-- C7, witness: the amended theorem applied to the zero-listing job at the
initial state. -/
theorem raeC7_witness :
    (processJob initialState cEnvZ).state.zeroReportList =
      initialState.zeroReportList ++ [cEnvZ.id] ∧
    (processJob initialState cEnvZ).outcome = Outcome.appended
      (buildRow cEnvZ (classifySnapshot cEnvZ.snapshot)
        "no morning report" "NA" "" "") ∧
    (processJob initialState cEnvZ).state.zeroReportList.count cEnvZ.id
      = 1 ∧
    processJob (processJob initialState cEnvZ).state cEnvZ =
      ⟨(processJob initialState cEnvZ).state, Outcome.skipped, 1, 0⟩ :=
  raeC7_amended initialState cEnvZ (by decide) (by decide) (by decide)

/-- C10: a nonempty report listing whose content fetch returns an empty
list makes the iteration raise: the job is remembered in the zero-report
set, no marker matches the serialized empty list, the fallback indexes
`report[0]`, the job gets no row, and the exception ends the loop. -/
theorem raeC10 (st : RunState) (env : JobEnv)
    (h1 : reachesReportPhase env = true)
    (h2 : st.zeroReportList.contains env.id = false)
    (h3 : env.listing.isEmpty = false)
    (h4 : env.contentNonempty = false) :
    (processJob st env).outcome = Outcome.raised ∧
    (processJob st env).state.zeroReportList =
      st.zeroReportList ++ [env.id] ∧
    ∀ rest, runLoop st (env :: rest) = ((processJob st env).state, []) := by
  simp only [reachesReportPhase, Bool.and_eq_true, Bool.not_eq_true'] at h1
  obtain ⟨⟨⟨ha, hb⟩, hc⟩, hd⟩ := h1
  have h2m : env.id ∉ st.zeroReportList := by
    simpa using h2
  have h3e : ¬env.listing = [] := by
    simpa [List.isEmpty_iff] using h3
  refine ⟨?_, ?_, fun rest => ?_⟩
  · simp [processJob, ha, hb, hc, hd, h2m, h3e, h4]
  · simp [processJob, ha, hb, hc, hd, h2m, h3e, h4]
  · have hout : (processJob st env).outcome = Outcome.raised := by
      simp [processJob, ha, hb, hc, hd, h2m, h3e, h4]
    simp [runLoop, hout]

/-- C10, witness: the theorem applied to the job with a listing entry but
empty content. -/
theorem raeC10_witness :
    (processJob initialState cEnvNoContent).outcome = Outcome.raised ∧
    (processJob initialState cEnvNoContent).state.zeroReportList =
      initialState.zeroReportList ++ [cEnvNoContent.id] ∧
    ∀ rest, runLoop initialState (cEnvNoContent :: rest) =
      ((processJob initialState cEnvNoContent).state, []) :=
  raeC10 initialState cEnvNoContent (by decide) (by decide) (by decide)
    (by decide)

/-- Rows of a run that raises while processing a job: everything
accumulated before that job is kept and nothing after it is processed. -/
theorem runLoop_raise_append (pre : List JobEnv) :
    ∀ (st : RunState) (env : JobEnv) (post : List JobEnv),
      (processJob (runLoop st pre).fst env).outcome = Outcome.raised →
      (runLoop st (pre ++ env :: post)).snd = (runLoop st pre).snd := by
  induction pre with
  | nil =>
    intro st env post h
    simp only [runLoop] at h
    simp [runLoop, h]
  | cons e es ih =>
    intro st env post h
    simp only [List.cons_append, runLoop]
    rcases ho : (processJob st e).outcome with row | _ | _ <;>
      simp only [runLoop, ho] at h ⊢
    · exact congrArg (List.cons row) (ih _ _ _ h)
    · exact ih _ _ _ h

/-- C8: when processing some job raises, the loop stops for it and for all
remaining jobs, the accumulated rows are exactly the rows of the preceding
jobs, and each of these rows still reaches the written sheet (which holds
the accumulated rows resorted by contractor name). -/
theorem raeC8 (pre : List JobEnv) (env : JobEnv) (post : List JobEnv)
    (h : (processJob (runLoop initialState pre).fst env).outcome =
      Outcome.raised) :
    mainRows (pre ++ env :: post) = mainRows pre ∧
    ∀ row ∈ mainRows pre, row ∈ writtenRows (pre ++ env :: post) := by
  have he : mainRows (pre ++ env :: post) = mainRows pre :=
    runLoop_raise_append pre initialState env post h
  refine ⟨he, fun row hr => ?_⟩
  have hperm := List.mergeSort_perm (mainRows (pre ++ env :: post)) rowLe
  rw [writtenRows]
  exact (hperm.mem_iff).mpr (he ▸ hr)

/-- C8, witness: the theorem applied to a healthy job followed by a job
whose attribute fetch failed. -/
theorem raeC8_witness :
    mainRows ([cEnvDefaults] ++ cEnvBadAttrs :: []) =
      mainRows [cEnvDefaults] ∧
    ∀ row ∈ mainRows [cEnvDefaults],
      row ∈ writtenRows ([cEnvDefaults] ++ cEnvBadAttrs :: []) :=
  raeC8 [cEnvDefaults] cEnvBadAttrs [] (by decide)

/-- C9: every appended row has as many cells as the main-sheet header has
columns, namely 26, and its cells are strings and ints in the fixed header
pattern: 4 identity strings, 3 IADC strings, 13 int status codes, BitStatus
and SlipStatus as strings, then 4 trailing strings. -/
theorem raeC9 (st : RunState) (env : JobEnv) (row : List Cell)
    (h : (processJob st env).outcome = Outcome.appended row) :
    row.length = header.length ∧ header.length = 26 ∧
    row.map cellIsInt =
      [false, false, false, false, false, false, false,
       true, true, true, true, true, true, true, true, true, true, true,
       true, true, false, false, false, false, false, false] := by
  have hrow : ∃ cls c c24 rid rd, row = buildRow env cls c c24 rid rd := by
    by_cases h1 : env.attrsFetched = true
    · by_cases h2 : (selectAttrs env.attrs).isEmpty = true
      · simp [processJob, h1, h2] at h
        exact ⟨_, _, _, _, _, h.symm⟩
      · by_cases h3 : env.histFetched = true
        · by_cases h4 : env.timeRecordsEmpty = true
          · simp [processJob, h1, h2, h3, h4] at h
            exact ⟨_, _, _, _, _, h.symm⟩
          · by_cases h5 : env.id ∈ st.zeroReportList
            · simp [processJob, h1, h2, h3, h4, h5] at h
            · by_cases h6 : env.listing.isEmpty = true
              · simp [processJob, h1, h2, h3, h4, h5, h6] at h
                exact ⟨_, _, _, _, _, h.symm⟩
              · by_cases h7 : env.contentNonempty = true
                · rcases hd : dispatch env.payload with _ | s
                  · simp [processJob, h1, h2, h3, h4, h5, h6, h7, hd] at h
                  · simp [processJob, h1, h2, h3, h4, h5, h6, h7, hd] at h
                    exact ⟨_, _, _, _, _, h.symm⟩
                · simp [processJob, h1, h2, h3, h4, h5, h6, h7] at h
        · simp [processJob, h1, h2, h3] at h
    · simp [processJob, h1] at h
  obtain ⟨cls, c, c24, rid, rd, rfl⟩ := hrow
  exact ⟨rfl, rfl, rfl⟩

/-- C9, witness: the theorem applied to the empty-selection job's default
row. -/
theorem raeC9_witness :
    (buildRow cEnvDefaults initStatuses "NA" "NA" "" "").length =
      header.length ∧
    header.length = 26 ∧
    (buildRow cEnvDefaults initStatuses "NA" "NA" "" "").map cellIsInt =
      [false, false, false, false, false, false, false,
       true, true, true, true, true, true, true, true, true, true, true,
       true, true, false, false, false, false, false, false] :=
  raeC9 initialState cEnvDefaults
    (buildRow cEnvDefaults initStatuses "NA" "NA" "" "") (by decide)
